import Mathlib

/-!
Shallow embedding of the Weaviate desktop client's store access layer
(`src/renderer/lib/weaviate.ts`, plus the url handling in
`SettingsModal.tsx` and the search-result normalization in
`CollectionsList.tsx`).

JSON values are modelled by `JVal`; the JavaScript distinction between
`undefined` and `null` is kept by using `Option JVal` (with `none` for
`undefined`) at every access site.  HTTP traffic is modelled by an
environment oracle `Env.respond` indexed by the call sequence number;
`none` stands for a rejected fetch (network failure).  Every operation
threads a `TraceState` recording the requests it has issued, and returns
`Except String α` where `Except.error` is a thrown exception carrying the
`Error` message.
-/

/-- A JSON value as produced by `response.json()`. -/
inductive JVal where
  | null
  | bool (b : Bool)
  | num (n : Int)
  | str (s : String)
  | arr (elems : List JVal)
  | obj (fields : List (String × JVal))

/-- Field lookup in an object's field list (first binding wins). -/
def getFieldList (f : String) : List (String × JVal) → Option JVal
  | [] => none
  | (k, v) :: rest => if k = f then some v else getFieldList f rest

/-- JavaScript property access `v.f` on a non-null value: objects look the
field up, every other value yields `undefined`. -/
def JVal.getField (v : JVal) (f : String) : Option JVal :=
  match v with
  | .obj fs => getFieldList f fs
  | _ => none

/-- JavaScript truthiness. -/
def JVal.truthy : JVal → Bool
  | .null => false
  | .bool b => b
  | .num n => n != 0
  | .str s => s != ""
  | .arr _ => true
  | .obj _ => true

/-- Truthiness of a possibly-`undefined` value. -/
def truthyU : Option JVal → Bool
  | none => false
  | some v => v.truthy

/-- Nullish coalescing `x ?? d`. -/
def nullish (x : Option JVal) (d : JVal) : JVal :=
  match x with
  | none => d
  | some .null => d
  | some v => v

/-- Logical-or defaulting `x || d` (JavaScript returns `d` when `x` is falsy). -/
def jsOrDefault (x : Option JVal) (d : JVal) : JVal :=
  match x with
  | none => d
  | some v => if v.truthy then v else d

/-- Optional-chained access `x?.f`: short-circuits to `undefined` on
`null`/`undefined`, otherwise plain property access. -/
def jsGetOpt (x : Option JVal) (f : String) : Option JVal :=
  match x with
  | none => none
  | some .null => none
  | some v => v.getField f

/-- Plain property access `x.f`; throws a `TypeError` when `x` is
`null`/`undefined`. -/
def jsGetE (x : Option JVal) (f : String) : Except String (Option JVal) :=
  match x with
  | none => .error "TypeError"
  | some .null => .error "TypeError"
  | some v => .ok (v.getField f)

/-- JavaScript numeric index access `v[i]` on a non-nullish value. -/
def jsIndex (v : JVal) (i : Nat) : Option JVal :=
  match v with
  | .arr xs => xs.get? i
  | .obj fs => getFieldList (toString i) fs
  | _ => none

mutual
/-- `String(v)` / template-literal conversion of a JSON value. -/
def jsToString : JVal → String
  | .null => "null"
  | .bool true => "true"
  | .bool false => "false"
  | .num n => toString n
  | .str s => s
  | .arr xs => String.intercalate "," (jsToStringList xs)
  | .obj _ => "[object Object]"

def jsToStringList : List JVal → List String
  | [] => []
  | x :: xs => jsToString x :: jsToStringList xs
end

/-- Template interpolation of a possibly-`undefined` value
(`` `${x}` `` renders `undefined` as the string "undefined"). -/
def jsTemplate : Option JVal → String
  | none => "undefined"
  | some v => jsToString v

/-! ## Connection state and settings (`settings.ts`, module state of `weaviate.ts`) -/

structure Settings where
  weaviateUrl : String
  apiKey : String
  deriving DecidableEq, Repr

structure Conn where
  currentUrl : String
  currentApiKey : String
  deriving DecidableEq, Repr

/-- `initializeWeaviate`: loads settings and stores them verbatim as the
module-level connection state (the source only logs; it performs no
normalization). -/
def initializeWeaviate (settings : Settings) : Conn :=
  { currentUrl := settings.weaviateUrl, currentApiKey := settings.apiKey }

/-- String truthiness (the empty string is the only falsy string). -/
def String.truthy (s : String) : Bool := s != ""

/-- Executable model of `String.prototype.startsWith` (character-list
prefix test). -/
def strStartsWith (s pre : String) : Bool :=
  pre.toList.isPrefixOf s.toList

/-- Executable model of `String.prototype.endsWith` (character-list
suffix test). -/
def strEndsWith (s suf : String) : Bool :=
  suf.toList.isSuffixOf s.toList

/-- The ASCII whitespace characters trimmed by `String.prototype.trim`. -/
def isWsChar (c : Char) : Bool :=
  c == ' ' || c == '\t' || c == '\n' || c == '\r'

/-- Executable model of `String.prototype.trim`. -/
def jsTrim (s : String) : String :=
  String.mk (((s.toList.dropWhile isWsChar).reverse.dropWhile isWsChar).reverse)

/-- `getWeaviateUrl`. -/
def getWeaviateUrl (conn : Conn) : String :=
  if conn.currentUrl.truthy then conn.currentUrl else "URL not configured"

/-- The guard `!currentUrl || currentUrl.trim() === ''` used by every
operation. -/
def urlBlank (url : String) : Bool :=
  url == "" || jsTrim url == ""

/-- The message of the configuration error thrown when the url is blank. -/
def configErrorMsg : String :=
  "Weaviate URL is not configured. Please set it in Settings."

/-- `getHeaders`: JSON content type plus a bearer header when a credential
is present. -/
def getHeaders (conn : Conn) : List (String × String) :=
  [("Content-Type", "application/json")] ++
    (if conn.currentApiKey.truthy then
      [("Authorization", "Bearer " ++ conn.currentApiKey)]
    else [])

/-- `SettingsModal.handleSave`'s url formatting: prefix `http://` when the
(non-empty) url starts with neither `http://` nor `https://`; nothing else
is changed (in particular no trailing slash is stripped). -/
def handleSaveFormatUrl (url : String) : String :=
  if url.truthy && !(strStartsWith url "http://") && !(strStartsWith url "https://") then
    "http://" ++ url
  else
    url

/-- `currentUrl.replace(/\/$/, '')` in `createCollection`: drop one
trailing slash. -/
def stripTrailingSlash (s : String) : String :=
  if strEndsWith s "/" then String.mk s.toList.dropLast else s

/-! ## Transport model -/

structure HttpRequest where
  url : String
  method : String
  headers : List (String × String)
  body : Option JVal

/-- An HTTP response.  `jsonBody` is the result of `JSON.parse` on the
body (`none` when the body is not valid JSON, in which case
`response.json()` rejects); `textBody` is the raw body text returned by
`response.text()`. -/
structure HttpResponse where
  status : Nat
  statusText : String
  jsonBody : Option JVal
  textBody : String

/-- `response.ok`: status in the 2xx range. -/
def respOk (r : HttpResponse) : Bool :=
  200 ≤ r.status && r.status ≤ 299

structure Env where
  settings : Settings
  /-- The store's reply to the n-th fetch issued in this run; `none`
  models a rejected fetch (network failure). -/
  respond : Nat → HttpRequest → Option HttpResponse

structure TraceState where
  calls : Nat
  reqs : List HttpRequest

def TraceState.init : TraceState := { calls := 0, reqs := [] }

/-- Issue one fetch: records the request and consults the oracle. -/
def fetchStep (env : Env) (st : TraceState) (req : HttpRequest) :
    Option HttpResponse × TraceState :=
  (env.respond st.calls req, { calls := st.calls + 1, reqs := st.reqs ++ [req] })

/-- Message standing for a rejected `fetch` promise. -/
def fetchFailedMsg : String := "fetch failed"

/-- Message standing for `response.json()` rejecting on a non-JSON body. -/
def jsonParseFailedMsg : String := "SyntaxError"

/-! ## GraphQL transport (`executeQuery`, `executeAggregateQuery`) -/

def graphqlRequest (conn : Conn) (queryStr : String) : HttpRequest :=
  { url := conn.currentUrl ++ "/v1/graphql", method := "POST",
    headers := getHeaders conn, body := some (.obj [("query", .str queryStr)]) }

/-- `executeQuery`: initialize, fail fast on a blank url, POST the query
document, throw on non-2xx, return the parsed JSON body. -/
def executeQuery (env : Env) (st : TraceState) (queryStr : String) :
    Except String JVal × TraceState :=
  let conn := initializeWeaviate env.settings
  if urlBlank conn.currentUrl then (.error configErrorMsg, st)
  else
    match fetchStep env st (graphqlRequest conn queryStr) with
    | (none, st1) => (.error fetchFailedMsg, st1)
    | (some resp, st1) =>
      if !respOk resp then (.error ("Query failed: " ++ resp.statusText), st1)
      else
        match resp.jsonBody with
        | none => (.error jsonParseFailedMsg, st1)
        | some v => (.ok v, st1)

/-- `executeAggregateQuery`: same transport as `executeQuery` (the
`className` argument is used by the source only in log messages). -/
def executeAggregateQuery (env : Env) (st : TraceState) (queryStr : String)
    (_className : Option JVal) : Except String JVal × TraceState :=
  let conn := initializeWeaviate env.settings
  if urlBlank conn.currentUrl then (.error configErrorMsg, st)
  else
    match fetchStep env st (graphqlRequest conn queryStr) with
    | (none, st1) => (.error fetchFailedMsg, st1)
    | (some resp, st1) =>
      if !respOk resp then (.error ("Query failed: " ++ resp.statusText), st1)
      else
        match resp.jsonBody with
        | none => (.error jsonParseFailedMsg, st1)
        | some v => (.ok v, st1)

/-! ## Collection listing (`getObjectCount`, `getCollections`) -/

/-- The `Aggregate { <className> { meta { count } } }` document built by
`getObjectCount` (interpolation follows template-literal semantics). -/
def buildAggregateQuery (className : Option JVal) : String :=
  "\n    \x7b\n      Aggregate \x7b\n        " ++ jsTemplate className ++
    " \x7b\n          meta \x7b\n            count\n          \x7d\n        \x7d\n      \x7d\n    \x7d\n  "

/-- `aggregateData[0]?.meta?.count ?? 0`. -/
def countFromAggregateData (aggregateData : JVal) : JVal :=
  nullish (jsGetOpt (jsGetOpt (jsIndex aggregateData 0) "meta") "count") (JVal.num 0)

/-- `getObjectCount`: the aggregate query itself is wrapped in
try/catch (any failure there returns count `0`), but the subsequent
access `aggregateResponse?.data.Aggregate[className] ?? []` is outside
the try/catch: only the first step of the chain is optional, so a
response without `data` or without `data.Aggregate` raises a `TypeError`
that escapes `getObjectCount`. -/
def getObjectCount (env : Env) (st : TraceState) (className : Option JVal) :
    Except String JVal × TraceState :=
  match executeAggregateQuery env st (buildAggregateQuery className) className with
  | (.error _, st1) => (.ok (JVal.num 0), st1)
  | (.ok respVal, st1) =>
    match respVal with
    | .null => (.ok (countFromAggregateData (JVal.arr [])), st1)
    | v =>
      match v.getField "data" with
      | none => (.error "TypeError", st1)
      | some .null => (.error "TypeError", st1)
      | some dv =>
        match dv.getField "Aggregate" with
        | none => (.error "TypeError", st1)
        | some .null => (.error "TypeError", st1)
        | some agv =>
          (.ok (countFromAggregateData
            (nullish (agv.getField (jsTemplate className)) (JVal.arr []))), st1)

def schemaGetRequest (conn : Conn) : HttpRequest :=
  { url := conn.currentUrl ++ "/v1/schema", method := "GET",
    headers := getHeaders conn, body := none }

structure PropInfo where
  name : Option JVal
  dataType : Option JVal
  description : Option JVal

structure CollectionInfo where
  name : Option JVal
  description : Option JVal
  count : JVal
  properties : List PropInfo

/-- The mapper `(p) => ({ name: p.name, dataType: p.dataType,
description: p.description })` applied element-wise; a `null` element
raises a `TypeError` at its access. -/
def mapPropsElems : List JVal → Except String (List PropInfo)
  | [] => .ok []
  | p :: rest =>
    match p with
    | .null => .error "TypeError"
    | v =>
      match mapPropsElems rest with
      | .error e => .error e
      | .ok tl =>
        .ok ({ name := v.getField "name", dataType := v.getField "dataType",
               description := v.getField "description" } :: tl)

/-- `weavClass.properties?.map(...) ?? []`: a nullish `properties` yields
`[]`, an array maps, any other value has no `.map` and raises. -/
def extractProperties (weavClass : JVal) : Except String (List PropInfo) :=
  match weavClass.getField "properties" with
  | none => .ok []
  | some .null => .ok []
  | some (.arr xs) => mapPropsElems xs
  | some _ => .error "TypeError"

/-- `for..of` iterability: arrays iterate their elements, strings their
characters, anything else raises a `TypeError`. -/
def iterElems : JVal → Except String (List JVal)
  | .arr xs => .ok xs
  | .str s => .ok (s.toList.map fun c => JVal.str (String.mk [c]))
  | _ => .error "TypeError"

/-- The `for (const weavClass of classes)` loop body of `getCollections`:
read `weavClass.class`, fetch the count (sequentially, one aggregate
round trip per class), map the properties, push the descriptor. -/
def getCollectionsLoop (env : Env) :
    List JVal → TraceState → List CollectionInfo →
    Except String (List CollectionInfo) × TraceState
  | [], st, acc => (.ok acc, st)
  | weavClass :: rest, st, acc =>
    match weavClass with
    | .null => (.error "TypeError", st)
    | wc =>
      let clsName := wc.getField "class"
      match getObjectCount env st clsName with
      | (.error e, st1) => (.error e, st1)
      | (.ok count, st1) =>
        match extractProperties wc with
        | .error e => (.error e, st1)
        | .ok props =>
          getCollectionsLoop env rest st1
            (acc ++ [{ name := clsName, description := wc.getField "description",
                       count := count, properties := props }])

/-- `getCollections`: fetch the schema listing, then sequentially enrich
every class with its aggregate count.  Any error thrown inside the loop
(including the `TypeError` from `getObjectCount`'s unguarded access) is
re-raised by the surrounding try/catch. -/
def getCollections (env : Env) (st : TraceState) :
    Except String (List CollectionInfo) × TraceState :=
  let conn := initializeWeaviate env.settings
  if urlBlank conn.currentUrl then (.error configErrorMsg, st)
  else
    match fetchStep env st (schemaGetRequest conn) with
    | (none, st1) => (.error fetchFailedMsg, st1)
    | (some resp, st1) =>
      if !respOk resp then (.error ("Failed to fetch schema: " ++ resp.statusText), st1)
      else
        match resp.jsonBody with
        | none => (.error jsonParseFailedMsg, st1)
        | some schemaVal =>
          match jsGetE (some schemaVal) "classes" with
          | .error e => (.error e, st1)
          | .ok copt =>
            match iterElems (nullish copt (JVal.arr [])) with
            | .error e => (.error e, st1)
            | .ok cls => getCollectionsLoop env cls st1 []

/-! ## Object listing (`getCollectionData`) -/

inductive SortOrder where
  | asc
  | desc
  deriving DecidableEq, Repr

/-- `sort.order.toLowerCase()` (the union type is already lowercase). -/
def SortOrder.toLowerStr : SortOrder → String
  | .asc => "asc"
  | .desc => "desc"

structure SortConfig where
  property : String
  order : SortOrder
  deriving DecidableEq, Repr

/-- The `properties` argument of `getCollectionData` (its `dataType` is
never used by the query builder). -/
structure GetDataProp where
  name : String
  dataType : List String
  deriving DecidableEq, Repr

/-- Template interpolation of an optional number (an absent argument
renders as the string "undefined"). -/
def jsTemplateNum : Option Int → String
  | none => "undefined"
  | some n => toString n

def buildSortDirective (sort : Option SortConfig) : String :=
  match sort with
  | none => ""
  | some s =>
    "sort: \x7b\n          path: [\"" ++ s.property ++ "\"],\n          order: " ++
      s.order.toLowerStr ++ "\n        \x7d"

def buildPaginationDirective (limit offset : Option Int) : String :=
  "limit: " ++ jsTemplateNum limit ++ ", offset: " ++ jsTemplateNum offset

/-- `[sortDirective, paginationDirective].filter(Boolean).join(', ')`. -/
def joinDirectives (ds : List String) : String :=
  String.intercalate ", " (ds.filter (·.truthy))

/-- The `Get` document built by `getCollectionData`. -/
def buildGetDataQuery (className : String) (properties : List GetDataProp)
    (sort : Option SortConfig) (limit offset : Option Int) : String :=
  let directives := joinDirectives
    [buildSortDirective sort, buildPaginationDirective limit offset]
  "\x7b\n      Get \x7b\n        " ++ className ++
    (if directives.truthy then "(" ++ directives ++ ")" else "") ++
    " \x7b\n          _additional \x7b\n            id\n          \x7d\n          " ++
    String.intercalate "\n" (properties.map (·.name)) ++
    "\n        \x7d\n      \x7d\n    \x7d"

/-- Digit-string parse for array index keys. -/
def jsParseIndex (k : String) : Option Nat :=
  if k.toList ≠ [] ∧ k.toList.all (·.isDigit) then
    some (k.toList.foldl (fun acc c => acc * 10 + (c.toNat - 48)) 0)
  else none

/-- Dynamic key access `v[k]` with a string key (arrays answer numeric
keys). -/
def jsIndexKey (v : JVal) (k : String) : Option JVal :=
  match v with
  | .obj fs => getFieldList k fs
  | .arr xs =>
    match jsParseIndex k with
    | some i => xs.get? i
    | none => none
  | _ => none

/-- The message thrown when a 2xx query response lacks the `data.Get`
envelope. -/
def invalidShapeMsg : String := "Invalid response structure from Weaviate"

/-- `getCollectionData`: build the listing document, run it, check only
`!response?.data?.Get`, then return `response.data.Get[className] || []`
(a missing collection key silently becomes `[]`). -/
def getCollectionData (env : Env) (st : TraceState) (className : String)
    (properties : List GetDataProp) (sort : Option SortConfig)
    (limit offset : Option Int) : Except String JVal × TraceState :=
  let conn := initializeWeaviate env.settings
  if urlBlank conn.currentUrl then (.error configErrorMsg, st)
  else
    let query := buildGetDataQuery className properties sort limit offset
    match executeQuery env st query with
    | (.error e, st1) => (.error e, st1)
    | (.ok response, st1) =>
      if !truthyU (jsGetOpt (jsGetOpt (some response) "data") "Get") then
        (.error invalidShapeMsg, st1)
      else
        match jsGetE (some response) "data" with
        | .error e => (.error e, st1)
        | .ok dOpt =>
          match jsGetE dOpt "Get" with
          | .error e => (.error e, st1)
          | .ok gOpt =>
            match gOpt with
            | none => (.error "TypeError", st1)
            | some .null => (.error "TypeError", st1)
            | some gv =>
              (.ok (jsOrDefault (jsIndexKey gv className) (JVal.arr [])), st1)

/-! ## Object deletion (`deleteObjects`, `deleteCollection`) -/

def deleteObjectRequest (conn : Conn) (id : String) : HttpRequest :=
  { url := conn.currentUrl ++ "/v1/objects/" ++ id, method := "DELETE",
    headers := getHeaders conn, body := none }

/-- The `for (const id of objectIds)` loop of `deleteObjects`: one DELETE
per id, awaited before the next; the first failure (rejected fetch or
non-2xx status) aborts the loop by throwing. -/
def deleteObjectsLoop (env : Env) (conn : Conn) :
    List String → TraceState → Except String Unit × TraceState
  | [], st => (.ok (), st)
  | id :: rest, st =>
    match fetchStep env st (deleteObjectRequest conn id) with
    | (none, st1) => (.error fetchFailedMsg, st1)
    | (some resp, st1) =>
      if !respOk resp then
        (.error ("Failed to delete object: " ++ resp.statusText), st1)
      else deleteObjectsLoop env conn rest st1

/-- `deleteObjects` (the collection name is used by the source only in
log messages). -/
def deleteObjects (env : Env) (st : TraceState) (_className : String)
    (objectIds : List String) : Except String Unit × TraceState :=
  let conn := initializeWeaviate env.settings
  if urlBlank conn.currentUrl then (.error configErrorMsg, st)
  else deleteObjectsLoop env conn objectIds st

def deleteCollectionRequest (conn : Conn) (className : String) : HttpRequest :=
  { url := conn.currentUrl ++ "/v1/schema/" ++ className, method := "DELETE",
    headers := getHeaders conn, body := none }

def deleteCollection (env : Env) (st : TraceState) (className : String) :
    Except String Unit × TraceState :=
  let conn := initializeWeaviate env.settings
  if urlBlank conn.currentUrl then (.error configErrorMsg, st)
  else
    match fetchStep env st (deleteCollectionRequest conn className) with
    | (none, st1) => (.error fetchFailedMsg, st1)
    | (some resp, st1) =>
      if !respOk resp then
        (.error ("Failed to delete collection: " ++ resp.statusText), st1)
      else (.ok (), st1)

/-! ## Object CRUD (`createObject`, `getObjectById`, `updateObject`) -/

def createObjectRequest (conn : Conn) (className : String) (object : JVal) :
    HttpRequest :=
  { url := conn.currentUrl ++ "/v1/objects", method := "POST",
    headers := getHeaders conn,
    body := some (.obj [("class", .str className), ("properties", object)]) }

/-- `createObject`: POST `{class, properties}` and return `result.id`. -/
def createObject (env : Env) (st : TraceState) (className : String)
    (object : JVal) : Except String (Option JVal) × TraceState :=
  let conn := initializeWeaviate env.settings
  if urlBlank conn.currentUrl then (.error configErrorMsg, st)
  else
    match fetchStep env st (createObjectRequest conn className object) with
    | (none, st1) => (.error fetchFailedMsg, st1)
    | (some resp, st1) =>
      if !respOk resp then
        (.error ("Failed to create object: " ++ resp.statusText ++ ". " ++ resp.textBody), st1)
      else
        match resp.jsonBody with
        | none => (.error jsonParseFailedMsg, st1)
        | some result =>
          match jsGetE (some result) "id" with
          | .error e => (.error e, st1)
          | .ok idv => (.ok idv, st1)

def getObjectRequest (conn : Conn) (objectId : String) : HttpRequest :=
  { url := conn.currentUrl ++ "/v1/objects/" ++ objectId, method := "GET",
    headers := getHeaders conn, body := none }

/-- `getObjectById`: a 404 returns `null` (modelled `Except.ok none`);
any other non-2xx throws; success returns `result.properties || {}`
(modelled `Except.ok (some v)`). -/
def getObjectById (env : Env) (st : TraceState) (_className : String)
    (objectId : String) : Except String (Option JVal) × TraceState :=
  let conn := initializeWeaviate env.settings
  if urlBlank conn.currentUrl then (.error configErrorMsg, st)
  else
    match fetchStep env st (getObjectRequest conn objectId) with
    | (none, st1) => (.error fetchFailedMsg, st1)
    | (some resp, st1) =>
      if !respOk resp then
        if resp.status = 404 then (.ok none, st1)
        else (.error ("Failed to fetch object: " ++ resp.statusText), st1)
      else
        match resp.jsonBody with
        | none => (.error jsonParseFailedMsg, st1)
        | some result =>
          match jsGetE (some result) "properties" with
          | .error e => (.error e, st1)
          | .ok popt => (.ok (some (jsOrDefault popt (JVal.obj []))), st1)

def updateObjectRequest (conn : Conn) (className objectId : String)
    (object : JVal) : HttpRequest :=
  { url := conn.currentUrl ++ "/v1/objects/" ++ objectId, method := "PATCH",
    headers := getHeaders conn,
    body := some (.obj [("class", .str className), ("properties", object)]) }

def updateObject (env : Env) (st : TraceState) (className objectId : String)
    (object : JVal) : Except String Unit × TraceState :=
  let conn := initializeWeaviate env.settings
  if urlBlank conn.currentUrl then (.error configErrorMsg, st)
  else
    match fetchStep env st (updateObjectRequest conn className objectId object) with
    | (none, st1) => (.error fetchFailedMsg, st1)
    | (some resp, st1) =>
      if !respOk resp then
        (.error ("Failed to update object: " ++ resp.statusText ++ ". " ++ resp.textBody), st1)
      else (.ok (), st1)

/-! ## Collection creation (`createCollection`) -/

/-- The `properties` entries of a `CreateCollectionSchema`. -/
structure CreateSchemaProp where
  name : String
  dataType : List String
  description : Option String
  deriving DecidableEq, Repr

/-- `CreateCollectionSchema` (`class` is a Lean keyword, so the field is
named `cls`). -/
structure CreateCollectionSchema where
  cls : String
  description : Option String
  properties : List CreateSchemaProp
  deriving DecidableEq, Repr

/-- `schema.class.charAt(0).toUpperCase() + schema.class.slice(1)`
(ASCII upper-casing, as used by the source for class names). -/
def upperFirst (s : String) : String :=
  match s.toList with
  | [] => ""
  | c :: rest => String.mk (Char.toUpper c :: rest)

/-- `dataType.includes('[]')`: the characters `[` and `]` occur adjacently. -/
def containsBracketPair : List Char → Bool
  | [] => false
  | a :: rest => (a == '[' && rest.head? == some ']') || containsBracketPair rest

/-- `dataType.replace('[]', '')`: drop the first adjacent `[]` pair. -/
def removeFirstBracketPair : List Char → List Char
  | [] => []
  | a :: rest =>
    if a == '[' && rest.head? == some ']' then rest.tail
    else a :: removeFirstBracketPair rest

/-- `.toLowerCase()` (ASCII). -/
def jsToLowerCase (s : String) : String :=
  String.mk (s.toList.map Char.toLower)

/-- The scalar `switch (lowerType)` of `createCollection`. -/
def mapScalarType (lowerType : String) : String :=
  if lowerType == "string" || lowerType == "text" then "text"
  else if lowerType == "int" then "int"
  else if lowerType == "number" then "number"
  else if lowerType == "boolean" then "boolean"
  else if lowerType == "date" then "date"
  else "text"

/-- The array `switch (baseType)` of `createCollection`. -/
def mapArrayType (baseType : String) : String :=
  if baseType == "string" || baseType == "text" then "text[]"
  else if baseType == "int" then "int[]"
  else if baseType == "number" then "number[]"
  else if baseType == "boolean" then "boolean[]"
  else if baseType == "date" then "date[]"
  else "text[]"

/-- The full dataType mapping: tokens containing `[]` go through the
array switch on the lower-cased base (first `[]` removed), all others
through the scalar switch on the lower-cased token. -/
def weaviateDataType (dataType : String) : String :=
  if containsBracketPair dataType.toList then
    mapArrayType (jsToLowerCase (String.mk (removeFirstBracketPair dataType.toList)))
  else
    mapScalarType (jsToLowerCase dataType)

/-- `prop.dataType[0] || 'string'` (an empty first token is falsy). -/
def dataTypeToken (p : CreateSchemaProp) : String :=
  match p.dataType.head? with
  | none => "string"
  | some s => if s.truthy then s else "string"

/-- One mapped property of the schema-creation payload
(`JSON.stringify` drops an `undefined` description). -/
def schemaPropPayload (p : CreateSchemaProp) : JVal :=
  .obj ([("name", .str p.name),
         ("dataType", .arr [.str (weaviateDataType (dataTypeToken p))])] ++
        (match p.description with
         | none => []
         | some d => [("description", .str d)]))

/-- The body POSTed to the schema endpoint. -/
def weaviateSchemaPayload (schema : CreateCollectionSchema) : JVal :=
  .obj ([("class", .str (upperFirst schema.cls))] ++
        (match schema.description with
         | none => []
         | some d => [("description", .str d)]) ++
        [("properties", .arr (schema.properties.map schemaPropPayload))])

def createCollectionRequest (conn : Conn) (schema : CreateCollectionSchema) :
    HttpRequest :=
  { url := stripTrailingSlash conn.currentUrl ++ "/v1/schema", method := "POST",
    headers := getHeaders conn, body := some (weaviateSchemaPayload schema) }

/-- The error-message extraction of `createCollection`'s non-2xx branch:
try to pull a human-readable message out of the JSON error body, falling
back to the status text with the short raw body appended when the body
does not parse (or a `TypeError` is raised inside the `try`). -/
def extractCreateErrorMessage (statusText : String) (jsonBody : Option JVal)
    (textBody : String) : String :=
  let base := "Failed to create collection: " ++ statusText
  let fallback :=
    if textBody.truthy && textBody.length < 500 then base ++ ". " ++ textBody
    else base
  match jsonBody with
  | none => fallback
  | some .null => fallback
  | some ej =>
    let errvOpt := ej.getField "error"
    if truthyU errvOpt then
      match errvOpt with
      | some (.arr (e0 :: _)) =>
        (match e0 with
         | .null => fallback
         | ev => jsToString (jsOrDefault (ev.getField "message") (.str base)))
      | some (.str s) => s
      | some errv => jsToString (jsOrDefault (errv.getField "message") (.str base))
      | none => base
    else
      jsToString (jsOrDefault (ej.getField "message") (.str base))

/-- `createCollection`: no input validation is performed; the mapped
payload is POSTed to `{baseUrl}/v1/schema` whenever the url is
configured. -/
def createCollection (env : Env) (st : TraceState)
    (schema : CreateCollectionSchema) : Except String Unit × TraceState :=
  let conn := initializeWeaviate env.settings
  if urlBlank conn.currentUrl then (.error configErrorMsg, st)
  else
    match fetchStep env st (createCollectionRequest conn schema) with
    | (none, st1) => (.error fetchFailedMsg, st1)
    | (some resp, st1) =>
      if !respOk resp then
        (.error (extractCreateErrorMessage resp.statusText resp.jsonBody resp.textBody), st1)
      else (.ok (), st1)

/-! ## Search (`searchCollections`) -/

inductive SearchType where
  | bm25
  | vector
  | hybrid
  deriving DecidableEq, Repr

structure SearchOptions where
  query : String
  collectionName : String
  searchType : Option SearchType
  limit : Option Int
  properties : Option (List String)
  deriving DecidableEq, Repr

/-- `properties && properties.length > 0 ? properties.map(p => `\"$\x7bp\x7d\"`).join(', ') : ''`. -/
def buildPropsList (properties : Option (List String)) : String :=
  match properties with
  | some ps =>
    if ps.length > 0 then
      String.intercalate ", " (ps.map (fun p => "\"" ++ p ++ "\""))
    else ""
  | none => ""

/-- The `searchDirective` if-chain of `searchCollections`. -/
def buildSearchDirective (searchType : SearchType) (query : String)
    (properties : Option (List String)) : String :=
  match searchType with
  | .bm25 =>
    let propertiesList := buildPropsList properties
    "bm25: \x7b query: \"" ++ query ++ "\"" ++
      (if propertiesList.truthy then ", properties: [" ++ propertiesList ++ "]" else "") ++
      " \x7d"
  | .vector => "nearText: \x7b concepts: [\"" ++ query ++ "\"] \x7d"
  | .hybrid =>
    let propertiesList := buildPropsList properties
    "hybrid: \x7b query: \"" ++ query ++ "\"" ++
      (if propertiesList.truthy then ", properties: [" ++ propertiesList ++ "]" else "") ++
      " \x7d"

/-- Strict equality `c.name === collectionName` between a loosely-typed
name and a string. -/
def nameMatches (x : Option JVal) (s : String) : Bool :=
  match x with
  | some (.str t) => t == s
  | _ => false

/-- `collection?.properties.map(p => p.name) || []`. -/
def searchPropertyNames (collections : List CollectionInfo)
    (collectionName : String) : List (Option JVal) :=
  match collections.find? (fun c => nameMatches c.name collectionName) with
  | none => []
  | some c => c.properties.map (·.name)

/-- `Array.prototype.join` element conversion (`null`/`undefined` join as
the empty string). -/
def jsJoinElem : Option JVal → String
  | none => ""
  | some .null => ""
  | some v => jsToString v

/-- `propertyNames.length > 0 ? propertyNames.join('\n') : '_additional { id }'`. -/
def buildPropertiesToFetch (propertyNames : List (Option JVal)) : String :=
  if propertyNames.length > 0 then
    String.intercalate "\n" (propertyNames.map jsJoinElem)
  else "_additional \x7b id \x7d"

/-- The `Get` document built by `searchCollections`. -/
def buildSearchQuery (collectionName searchDirective : String)
    (limitValue : Int) (propertiesToFetch : String) : String :=
  "\x7b\n      Get \x7b\n        " ++ collectionName ++ "(\n          " ++
    searchDirective ++ "\n          limit: " ++ toString limitValue ++
    "\n        ) \x7b\n          _additional \x7b\n            id\n            score\n          \x7d\n          " ++
    propertiesToFetch ++ "\n        \x7d\n      \x7d\n    \x7d"

/-- `searchType = 'bm25'` destructuring default. -/
def effectiveSearchType (options : SearchOptions) : SearchType :=
  options.searchType.getD SearchType.bm25

/-- `limit = 10` destructuring default followed by `limit || 10`. -/
def effectiveLimit (options : SearchOptions) : Int :=
  match options.limit with
  | none => 10
  | some l => if l == 0 then 10 else l

/-- `searchCollections`: build the search directive, resolve the target
collection's full property list via `getCollections`, run the document,
check only `!response?.data?.Get`, and return
`response.data.Get[collectionName] || []`. -/
def searchCollections (env : Env) (st : TraceState) (options : SearchOptions) :
    Except String JVal × TraceState :=
  let conn := initializeWeaviate env.settings
  if urlBlank conn.currentUrl then (.error configErrorMsg, st)
  else
    let searchDirective :=
      buildSearchDirective (effectiveSearchType options) options.query options.properties
    match getCollections env st with
    | (.error e, st1) => (.error e, st1)
    | (.ok collections, st1) =>
      let propertyNames := searchPropertyNames collections options.collectionName
      let graphqlQuery :=
        buildSearchQuery options.collectionName searchDirective
          (effectiveLimit options) (buildPropertiesToFetch propertyNames)
      match executeQuery env st1 graphqlQuery with
      | (.error e, st2) => (.error e, st2)
      | (.ok response, st2) =>
        if !truthyU (jsGetOpt (jsGetOpt (some response) "data") "Get") then
          (.error invalidShapeMsg, st2)
        else
          match jsGetE (some response) "data" with
          | .error e => (.error e, st2)
          | .ok dOpt =>
            match jsGetE dOpt "Get" with
            | .error e => (.error e, st2)
            | .ok gOpt =>
              match gOpt with
              | none => (.error "TypeError", st2)
              | some .null => (.error "TypeError", st2)
              | some gv =>
                (.ok (jsOrDefault (jsIndexKey gv options.collectionName) (JVal.arr [])), st2)

/-! ## Search-result normalization (`CollectionsList.handleSearch`) -/

/-- `typeof v === 'object'` (true for objects, arrays and `null`). -/
def isObjectTypeof : JVal → Bool
  | .obj _ => true
  | .arr _ => true
  | .null => true
  | _ => false

/-- The default identity-and-score sidecar `{ id: '', score: 0 }`. -/
def defaultSidecar : JVal := .obj [("id", .str ""), ("score", .num 0)]

/-- Object-literal key update: an existing key keeps its position, a new
key is appended (spread-then-override semantics). -/
def setField (fs : List (String × JVal)) (k : String) (v : JVal) :
    List (String × JVal) :=
  if fs.any (fun p => p.1 == k) then
    fs.map (fun p => if p.1 == k then (p.1, v) else p)
  else fs ++ [(k, v)]

/-- `{...arr}`: spreading an array into an object literal yields its
index keys. -/
def arrSpreadFields (xs : List JVal) : List (String × JVal) :=
  ((List.range xs.length).zip xs).map (fun p => (toString p.1, p.2))

/-- The per-row normalization of `CollectionsList.handleSearch`: a falsy
or non-object row is replaced wholly by `{ _additional: {id:'',score:0} }`;
otherwise the row is spread and `_additional` is defaulted when falsy. -/
def normalizeSearchRow (result : JVal) : JVal :=
  if !result.truthy || !isObjectTypeof result then
    .obj [("_additional", defaultSidecar)]
  else
    match result with
    | .obj fs =>
      .obj (setField fs "_additional"
        (jsOrDefault (getFieldList "_additional" fs) defaultSidecar))
    | .arr xs =>
      .obj (setField (arrSpreadFields xs) "_additional" defaultSidecar)
    | _ => .obj [("_additional", defaultSidecar)]

/-- `searchResults.map(...)` over the rows delivered to the search view. -/
def handleSearchNormalize (results : List JVal) : List JVal :=
  results.map normalizeSearchRow

/-! ## Theorems -/

/-- C4 counterexample: the claim says the stored url after `initialize` is
scheme-prefixed and has no trailing slash.  In fact `initializeWeaviate`
stores the loaded url byte-identical: a url saved through the app's own
settings modal with a trailing slash (`http://localhost:8080/` is already
schemed, so `handleSave` keeps it byte-identical) is stored with its
trailing slash, and an unschemed loaded url is stored without any
`http://` prefixing. -/
theorem C4_counterexample :
    handleSaveFormatUrl "http://localhost:8080/" = "http://localhost:8080/" ∧
    (initializeWeaviate { weaviateUrl := "http://localhost:8080/", apiKey := "" }).currentUrl
      = "http://localhost:8080/" ∧
    strEndsWith "http://localhost:8080/" "/" = true ∧
    (initializeWeaviate { weaviateUrl := "localhost:8080", apiKey := "" }).currentUrl
      = "localhost:8080" ∧
    strStartsWith "localhost:8080" "http://" = false ∧
    strStartsWith "localhost:8080" "https://" = false := by
  exact ⟨by decide, rfl, by decide, rfl, by decide, by decide⟩

/-- C4 (amended): `initializeWeaviate` stores the loaded settings url
byte-identical, performing no normalization.  Scheme-prefixing happens
only in the settings-save path: `handleSave` prefixes `http://` to a
non-empty url lacking a scheme and keeps an already-schemed url
byte-identical.  No trailing slash is stripped from the stored url;
only `createCollection` strips one trailing slash when building its own
request URL. -/
theorem C4_url_handling_amended :
    (∀ s : Settings, (initializeWeaviate s).currentUrl = s.weaviateUrl) ∧
    (∀ u : String, u.truthy = true → strStartsWith u "http://" = false →
      strStartsWith u "https://" = false → handleSaveFormatUrl u = "http://" ++ u) ∧
    (∀ u : String, (strStartsWith u "http://" = true ∨ strStartsWith u "https://" = true) →
      handleSaveFormatUrl u = u) ∧
    (∀ (conn : Conn) (schema : CreateCollectionSchema),
      (createCollectionRequest conn schema).url =
        stripTrailingSlash conn.currentUrl ++ "/v1/schema") := by
  refine ⟨fun s => rfl, ?_, ?_, fun conn schema => rfl⟩
  · intro u h1 h2 h3
    simp [handleSaveFormatUrl, h1, h2, h3]
  · intro u h
    rcases h with h | h <;> simp [handleSaveFormatUrl, h]

/-- C4 witness: the amended theorem applied at concrete urls. -/
theorem C4_witness :
    (initializeWeaviate { weaviateUrl := "localhost:8080", apiKey := "k" }).currentUrl
      = "localhost:8080" ∧
    handleSaveFormatUrl "localhost:8080" = "http://" ++ "localhost:8080" ∧
    handleSaveFormatUrl "https://db.example.com" = "https://db.example.com" := by
  refine ⟨C4_url_handling_amended.1 _, ?_, ?_⟩
  · exact C4_url_handling_amended.2.1 "localhost:8080" (by decide) (by decide) (by decide)
  · exact C4_url_handling_amended.2.2.1 "https://db.example.com" (Or.inr (by decide))

/-- A 2xx response with an empty-object JSON body. -/
def okEmptyObjResp : HttpResponse :=
  { status := 200, statusText := "OK", jsonBody := some (.obj []), textBody := "\x7b\x7d" }

def env8 : Env :=
  { settings := { weaviateUrl := "http://localhost:8080", apiKey := "" },
    respond := fun _ _ => some okEmptyObjResp }

/-- C8 counterexample: the claim says a schema with an empty collection
name or no properties fails with a `ValidationError` before any network
call.  In fact `createCollection` performs no validation: with the empty
schema the POST to the schema endpoint is issued (the store is
contacted) and the call even succeeds. -/
theorem C8_counterexample :
    (createCollection env8 TraceState.init
      { cls := "", description := none, properties := [] }).1 = .ok () ∧
    ((createCollection env8 TraceState.init
      { cls := "", description := none, properties := [] }).2.reqs.map
        (fun r => (r.method, r.url))) =
      [("POST", "http://localhost:8080/v1/schema")] := by
  exact ⟨rfl, rfl⟩

/-- C8 (amended): `createCollection` performs no input validation.  For
every schema — including one with an empty collection name or an empty
property list — once the url is configured it issues exactly one POST of
the mapped payload to the schema endpoint, and the outcome is determined
entirely by the store's response (success on 2xx, a transport error
otherwise); no pre-network `ValidationError` exists. -/
theorem C8_no_validation_always_posts :
    ∀ (env : Env) (st : TraceState) (schema : CreateCollectionSchema),
      urlBlank (initializeWeaviate env.settings).currentUrl = false →
      ((createCollection env st schema).2.reqs =
        st.reqs ++ [createCollectionRequest (initializeWeaviate env.settings) schema]) ∧
      (∀ resp, env.respond st.calls
          (createCollectionRequest (initializeWeaviate env.settings) schema) = some resp →
        (respOk resp = true → (createCollection env st schema).1 = .ok ()) ∧
        (respOk resp = false → (createCollection env st schema).1 =
          .error (extractCreateErrorMessage resp.statusText resp.jsonBody resp.textBody))) ∧
      (env.respond st.calls
          (createCollectionRequest (initializeWeaviate env.settings) schema) = none →
        (createCollection env st schema).1 = .error fetchFailedMsg) := by
  intro env st schema hurl
  refine ⟨?_, ?_, ?_⟩
  · cases hr : env.respond st.calls
      (createCollectionRequest (initializeWeaviate env.settings) schema) with
    | none => simp [createCollection, hurl, fetchStep, hr]
    | some resp =>
      simp only [createCollection, hurl, fetchStep, hr, Bool.false_eq_true, if_false]
      split <;> rfl
  · intro resp hr
    constructor <;> intro hok <;>
      simp [createCollection, hurl, fetchStep, hr, hok]
  · intro hr
    simp [createCollection, hurl, fetchStep, hr]

/-- C8 witness: the amended theorem applied to the empty schema against a
concrete store. -/
theorem C8_witness :
    (createCollection env8 TraceState.init
      { cls := "", description := none, properties := [] }).2.reqs =
      [createCollectionRequest (initializeWeaviate env8.settings)
        { cls := "", description := none, properties := [] }] ∧
    (createCollection env8 TraceState.init
      { cls := "", description := none, properties := [] }).1 = .ok () := by
  have h := C8_no_validation_always_posts env8 TraceState.init
    { cls := "", description := none, properties := [] } (by decide)
  exact ⟨by simpa using h.1, (h.2.1 okEmptyObjResp rfl).1 (by decide)⟩

/-- C6: for every collection name and object id (with a configured url),
a 404 on the single-object fetch yields the absent-marker (`null`,
modelled `Except.ok none`) rather than a thrown error; every other
non-2xx status throws `Failed to fetch object: <statusText>` (the
`TransportError`); and a 2xx response whose envelope carries a truthy
`properties` sub-object returns exactly that sub-object. -/
theorem C6_getObjectById_status_translation :
    ∀ (env : Env) (st : TraceState) (cn oid : String),
      urlBlank (initializeWeaviate env.settings).currentUrl = false →
      ∀ resp, env.respond st.calls
          (getObjectRequest (initializeWeaviate env.settings) oid) = some resp →
      ((resp.status = 404 → (getObjectById env st cn oid).1 = .ok none) ∧
       (respOk resp = false → resp.status ≠ 404 →
         (getObjectById env st cn oid).1 =
           .error ("Failed to fetch object: " ++ resp.statusText)) ∧
       (respOk resp = true → ∀ fs p, resp.jsonBody = some (.obj fs) →
         getFieldList "properties" fs = some p → p.truthy = true →
         (getObjectById env st cn oid).1 = .ok (some p))) := by
  intro env st cn oid hurl resp hr
  refine ⟨?_, ?_, ?_⟩
  · intro h404
    have hok : respOk resp = false := by simp [respOk, h404]
    simp [getObjectById, hurl, fetchStep, hr, hok, h404]
  · intro hok h404
    simp [getObjectById, hurl, fetchStep, hr, hok, h404]
  · intro hok fs p hbody hprops htr
    simp [getObjectById, hurl, fetchStep, hr, hok, hbody, jsGetE, JVal.getField,
      hprops, jsOrDefault, htr]

def respNotFound : HttpResponse :=
  { status := 404, statusText := "Not Found", jsonBody := some .null, textBody := "" }

def respServerError : HttpResponse :=
  { status := 500, statusText := "Internal Server Error", jsonBody := none, textBody := "" }

def respObjEnvelope : HttpResponse :=
  { status := 200, statusText := "OK",
    jsonBody := some (.obj [("id", .str "u1"),
      ("properties", .obj [("title", .str "t")])]),
    textBody := "" }

def env6settings : Settings := { weaviateUrl := "http://localhost:8080", apiKey := "" }

def env404 : Env := { settings := env6settings, respond := fun _ _ => some respNotFound }

def env500 : Env := { settings := env6settings, respond := fun _ _ => some respServerError }

def envObj : Env := { settings := env6settings, respond := fun _ _ => some respObjEnvelope }

/-- C6 witness: the theorem applied against concrete 404, 500 and 2xx
stores. -/
theorem C6_witness :
    (getObjectById env404 TraceState.init "Article" "missing-id").1 = .ok none ∧
    (getObjectById env500 TraceState.init "Article" "x").1 =
      .error ("Failed to fetch object: " ++ "Internal Server Error") ∧
    (getObjectById envObj TraceState.init "Article" "u1").1 =
      .ok (some (.obj [("title", .str "t")])) := by
  refine ⟨?_, ?_, ?_⟩
  · exact (C6_getObjectById_status_translation env404 TraceState.init "Article" "missing-id"
      (by decide) respNotFound rfl).1 rfl
  · exact (C6_getObjectById_status_translation env500 TraceState.init "Article" "x"
      (by decide) respServerError rfl).2.1 (by decide) (by decide)
  · exact (C6_getObjectById_status_translation envObj TraceState.init "Article" "u1"
      (by decide) respObjEnvelope rfl).2.2 (by decide)
      [("id", .str "u1"), ("properties", .obj [("title", .str "t")])]
      (.obj [("title", .str "t")]) rfl rfl rfl

/-- Appending a `[]` pair always makes `includes('[]')` true. -/
theorem containsBracketPair_append_pair (l : List Char) :
    containsBracketPair (l ++ ['[', ']']) = true := by
  induction l with
  | nil => decide
  | cons a rest ih => simp [containsBracketPair, ih]

/-- Removing the first `[]` pair from `l ++ "[]"` recovers `l` when `l`
itself contains no pair. -/
theorem removeFirst_append_pair (l : List Char)
    (h : containsBracketPair l = false) :
    removeFirstBracketPair (l ++ ['[', ']']) = l := by
  induction l with
  | nil => decide
  | cons a rest ih =>
    simp only [containsBracketPair, Bool.or_eq_false_iff] at h
    obtain ⟨h1, h2⟩ := h
    simp [removeFirstBracketPair, ih h2]
    intro ha hh
    simp [ha, hh] at h1

/-- The array switch is the scalar switch with `[]` appended. -/
theorem mapArrayType_eq_scalar (l : String) :
    mapArrayType l = mapScalarType l ++ "[]" := by
  unfold mapArrayType mapScalarType
  split_ifs <;> rfl

/-- C5: for every schema with at least one property (and a configured
url), `createCollection` POSTs to the schema endpoint a payload whose
class name is the input class with its first character upper-cased and
whose property dataTypes are mapped through the canonical table:
`string`/`text` → `text`; `int`, `number`, `boolean`, `date` → their
lowercase selves; any unrecognized scalar token → `text`; and a
`[]`-suffixed token maps to the `[]`-suffixed canonical form of its base
(e.g. `int[]` → `int[]`, unrecognized array token → `text[]`). -/
theorem C5_createCollection_payload_mapping :
    ∀ (env : Env) (st : TraceState) (schema : CreateCollectionSchema),
      urlBlank (initializeWeaviate env.settings).currentUrl = false →
      schema.properties ≠ [] →
      ((createCollection env st schema).2.reqs =
        st.reqs ++ [createCollectionRequest (initializeWeaviate env.settings) schema]) ∧
      ((weaviateSchemaPayload schema).getField "class" =
        some (.str (upperFirst schema.cls))) ∧
      ((weaviateSchemaPayload schema).getField "properties" =
        some (.arr (schema.properties.map schemaPropPayload))) ∧
      (∀ p : CreateSchemaProp, (schemaPropPayload p).getField "dataType" =
        some (.arr [.str (weaviateDataType (dataTypeToken p))])) ∧
      (weaviateDataType "string" = "text" ∧ weaviateDataType "text" = "text" ∧
       weaviateDataType "int" = "int" ∧ weaviateDataType "number" = "number" ∧
       weaviateDataType "boolean" = "boolean" ∧ weaviateDataType "date" = "date") ∧
      (∀ t : String, containsBracketPair t.toList = false →
        jsToLowerCase t ≠ "string" → jsToLowerCase t ≠ "text" →
        jsToLowerCase t ≠ "int" → jsToLowerCase t ≠ "number" →
        jsToLowerCase t ≠ "boolean" → jsToLowerCase t ≠ "date" →
        weaviateDataType t = "text") ∧
      (∀ t : String, containsBracketPair t.toList = false →
        weaviateDataType (t ++ "[]") = mapScalarType (jsToLowerCase t) ++ "[]") ∧
      (weaviateDataType "int[]" = "int[]" ∧ weaviateDataType "Date[]" = "date[]" ∧
       weaviateDataType "geo[]" = "text[]" ∧ weaviateDataType "geo" = "text") := by
  intro env st schema hurl _hprops
  refine ⟨?_, ?_, ?_, ?_, by decide, ?_, ?_, by decide⟩
  · cases hr : env.respond st.calls
      (createCollectionRequest (initializeWeaviate env.settings) schema) with
    | none => simp [createCollection, hurl, fetchStep, hr]
    | some resp =>
      simp only [createCollection, hurl, fetchStep, hr, Bool.false_eq_true, if_false]
      split <;> rfl
  · cases hd : schema.description <;>
      simp [weaviateSchemaPayload, JVal.getField, getFieldList, hd]
  · cases hd : schema.description <;>
      simp [weaviateSchemaPayload, JVal.getField, getFieldList, hd]
  · intro p
    cases hd : p.description <;>
      simp [schemaPropPayload, JVal.getField, getFieldList, hd]
  · intro t hnb hs ht hi hn hb hd
    have hnb' : containsBracketPair t.data = false := hnb
    unfold weaviateDataType
    simp [hnb', mapScalarType, hs, ht, hi, hn, hb, hd]
  · intro t hnb
    have hnb' : containsBracketPair t.data = false := hnb
    have htl : (t ++ "[]").toList = t.data ++ ['[', ']'] := by
      show (t ++ "[]").data = t.data ++ ['[', ']']
      rw [String.data_append]
    unfold weaviateDataType
    rw [htl, containsBracketPair_append_pair, removeFirst_append_pair _ hnb',
      if_pos rfl, mapArrayType_eq_scalar]

def env5 : Env :=
  { settings := { weaviateUrl := "http://localhost:8080", apiKey := "" },
    respond := fun _ _ => some okEmptyObjResp }

def schema5 : CreateCollectionSchema :=
  { cls := "article", description := none,
    properties := [{ name := "title", dataType := ["string"], description := none },
                   { name := "tags", dataType := ["Text[]"], description := none }] }

/-- C5 witness: the theorem applied to a concrete schema; the POSTed
payload capitalizes `article` and maps `string` → `text`,
`Text[]` → `text[]`. -/
theorem C5_witness :
    (createCollection env5 TraceState.init schema5).2.reqs =
      [createCollectionRequest (initializeWeaviate env5.settings) schema5] ∧
    (weaviateSchemaPayload schema5).getField "class" =
      some (.str (upperFirst schema5.cls)) ∧
    upperFirst "article" = "Article" ∧
    weaviateDataType "string" = "text" ∧
    weaviateDataType "Text[]" = "text[]" := by
  have h := C5_createCollection_payload_mapping env5 TraceState.init schema5
    (by decide) (by simp [schema5])
  refine ⟨by simpa using h.1, h.2.1, by decide, h.2.2.2.2.1.1, ?_⟩
  have harr := h.2.2.2.2.2.2.1 "Text" (by decide)
  simpa using harr

def respGetNoKey : HttpResponse :=
  { status := 200, statusText := "OK",
    jsonBody := some (.obj [("data", .obj [("Get", .obj [])])]), textBody := "" }

def env7 : Env :=
  { settings := { weaviateUrl := "http://localhost:8080", apiKey := "" },
    respond := fun _ _ => some respGetNoKey }

/-- C7 counterexample: the claim says a 2xx query response lacking the
nested shape `data.Get.<collectionName>` fails with a `ProtocolError`.
In fact the code checks only `data.Get`: a response whose `data.Get` is
present but lacks the collection key makes `getCollectionData` return an
empty list instead of raising an error. -/
theorem C7_counterexample :
    (getCollectionData env7 TraceState.init "Article" [] none (some 250) (some 0)).1
      = .ok (.arr []) ∧
    (∀ e : String,
      (getCollectionData env7 TraceState.init "Article" [] none (some 250) (some 0)).1
        ≠ .error e) := by
  refine ⟨rfl, ?_⟩
  intro e h
  rw [show (getCollectionData env7 TraceState.init "Article" [] none (some 250) (some 0)).1
      = Except.ok (JVal.arr []) from rfl] at h
  exact Except.noConfusion h

/-- C7 (amended): on a 2xx query response, both the page fetch and the
search validate only the `data.Get` envelope: when `response?.data?.Get`
is falsy the operation throws `Invalid response structure from Weaviate`
(the `ProtocolError`); but the check does not extend to the collection
key — when `data.Get` exists and merely lacks the `<collectionName>`
key, an empty result list is returned instead of an error. -/
theorem C7_shape_check_amended :
    ∀ (env : Env) (st : TraceState),
      urlBlank (initializeWeaviate env.settings).currentUrl = false →
      (∀ (cn : String) (props : List GetDataProp) (sort : Option SortConfig)
          (limit offset : Option Int) (resp : HttpResponse) (B : JVal),
        env.respond st.calls (graphqlRequest (initializeWeaviate env.settings)
          (buildGetDataQuery cn props sort limit offset)) = some resp →
        respOk resp = true → resp.jsonBody = some B →
        ((truthyU (jsGetOpt (jsGetOpt (some B) "data") "Get") = false →
          (getCollectionData env st cn props sort limit offset).1 =
            .error invalidShapeMsg) ∧
         (∀ fsB fsD g, B = .obj fsB →
          getFieldList "data" fsB = some (.obj fsD) →
          getFieldList "Get" fsD = some (.obj g) →
          getFieldList cn g = none →
          (getCollectionData env st cn props sort limit offset).1 = .ok (.arr [])))) ∧
      (∀ (opts : SearchOptions) (respSchema resp : HttpResponse) (B : JVal),
        env.respond st.calls (schemaGetRequest (initializeWeaviate env.settings))
          = some respSchema →
        respOk respSchema = true →
        respSchema.jsonBody = some (.obj [("classes", .arr [])]) →
        env.respond (st.calls + 1) (graphqlRequest (initializeWeaviate env.settings)
          (buildSearchQuery opts.collectionName
            (buildSearchDirective (effectiveSearchType opts) opts.query opts.properties)
            (effectiveLimit opts)
            (buildPropertiesToFetch (searchPropertyNames [] opts.collectionName))))
          = some resp →
        respOk resp = true → resp.jsonBody = some B →
        ((truthyU (jsGetOpt (jsGetOpt (some B) "data") "Get") = false →
          (searchCollections env st opts).1 = .error invalidShapeMsg) ∧
         (∀ fsB fsD g, B = .obj fsB →
          getFieldList "data" fsB = some (.obj fsD) →
          getFieldList "Get" fsD = some (.obj g) →
          getFieldList opts.collectionName g = none →
          (searchCollections env st opts).1 = .ok (.arr [])))) := by
  intro env st hurl
  constructor
  · intro cn props sort limit offset resp B hr hok hbody
    constructor
    · intro htr
      simp [getCollectionData, hurl, executeQuery, fetchStep, hr, hok, hbody, htr]
    · intro fsB fsD g hB hBD hDG hkey
      subst hB
      have htr : truthyU (jsGetOpt (jsGetOpt (some (JVal.obj fsB)) "data") "Get") = true := by
        simp [truthyU, jsGetOpt, JVal.getField, hBD, hDG, JVal.truthy]
      simp [getCollectionData, hurl, executeQuery, fetchStep, hr, hok, hbody, htr,
        jsGetE, JVal.getField, hBD, hDG, jsIndexKey, hkey, jsOrDefault]
  · intro opts respSchema resp B hr1 hok1 hbody1 hr2 hok2 hbody2
    have hcoll : getCollections env st =
        (.ok [], { calls := st.calls + 1,
                   reqs := st.reqs ++ [schemaGetRequest (initializeWeaviate env.settings)] }) := by
      simp [getCollections, hurl, fetchStep, hr1, hok1, hbody1, jsGetE, JVal.getField,
        getFieldList, nullish, iterElems, getCollectionsLoop]
    constructor
    · intro htr
      simp [searchCollections, hurl, hcoll, executeQuery, fetchStep, hr2, hok2, hbody2, htr]
    · intro fsB fsD g hB hBD hDG hkey
      subst hB
      have htr : truthyU (jsGetOpt (jsGetOpt (some (JVal.obj fsB)) "data") "Get") = true := by
        simp [truthyU, jsGetOpt, JVal.getField, hBD, hDG, JVal.truthy]
      simp [searchCollections, hurl, hcoll, executeQuery, fetchStep, hr2, hok2, hbody2, htr,
        jsGetE, JVal.getField, hBD, hDG, jsIndexKey, hkey, jsOrDefault]

def respNoData : HttpResponse :=
  { status := 200, statusText := "OK",
    jsonBody := some (.obj [("errors", .arr [])]), textBody := "" }

def env7bad : Env :=
  { settings := { weaviateUrl := "http://localhost:8080", apiKey := "" },
    respond := fun _ _ => some respNoData }

def schemaEmptyResp : HttpResponse :=
  { status := 200, statusText := "OK",
    jsonBody := some (.obj [("classes", .arr [])]), textBody := "" }

def env7search : Env :=
  { settings := { weaviateUrl := "http://localhost:8080", apiKey := "" },
    respond := fun n _ => if n = 0 then some schemaEmptyResp else some respGetNoKey }

def env7searchbad : Env :=
  { settings := { weaviateUrl := "http://localhost:8080", apiKey := "" },
    respond := fun n _ => if n = 0 then some schemaEmptyResp else some respNoData }

def searchOpts7 : SearchOptions :=
  { query := "q", collectionName := "Article", searchType := none,
    limit := none, properties := none }

/-- C7 witness: the amended theorem applied against concrete stores — a
2xx body without `data.Get` raises the shape error for both operations,
and a 2xx body with `data.Get` but no collection key yields `[]` for the
search as well. -/
theorem C7_witness :
    (getCollectionData env7bad TraceState.init "Article" [] none (some 250) (some 0)).1
      = .error invalidShapeMsg ∧
    (searchCollections env7search TraceState.init searchOpts7).1 = .ok (.arr []) ∧
    (searchCollections env7searchbad TraceState.init searchOpts7).1 = .error invalidShapeMsg := by
  refine ⟨?_, ?_, ?_⟩
  · exact ((C7_shape_check_amended env7bad TraceState.init (by decide)).1
      "Article" [] none (some 250) (some 0) respNoData (.obj [("errors", .arr [])])
      rfl (by decide) rfl).1 (by decide)
  · exact ((C7_shape_check_amended env7search TraceState.init (by decide)).2
      searchOpts7 schemaEmptyResp respGetNoKey (.obj [("data", .obj [("Get", .obj [])])])
      rfl (by decide) rfl rfl (by decide) rfl).2
      [("data", .obj [("Get", .obj [])])] [("Get", .obj [])] [] rfl rfl rfl rfl
  · exact ((C7_shape_check_amended env7searchbad TraceState.init (by decide)).2
      searchOpts7 schemaEmptyResp respNoData (.obj [("errors", .arr [])])
      rfl (by decide) rfl rfl (by decide) rfl).1 (by decide)

def respRowNoSidecar : HttpResponse :=
  { status := 200, statusText := "OK",
    jsonBody := some (.obj [("data", .obj [("Get",
      .obj [("Article", .arr [.obj [("name", .str "x")]])])])]),
    textBody := "" }

def env9 : Env :=
  { settings := { weaviateUrl := "http://localhost:8080", apiKey := "" },
    respond := fun _ _ => some respRowNoSidecar }

/-- C9 counterexample: the claim says rows delivered by the object
listing never lack the identity-and-score sidecar.  In fact
`getCollectionData` returns the store's rows verbatim and no caller on
the listing path defaults the sidecar: a row without `_additional` is
delivered exactly as it came, sidecar absent. -/
theorem C9_counterexample :
    (getCollectionData env9 TraceState.init "Article" [] none (some 250) (some 0)).1
      = .ok (.arr [.obj [("name", .str "x")]]) ∧
    getFieldList "_additional" [("name", JVal.str "x")] = none := by
  exact ⟨rfl, rfl⟩

/-- A key present in the list makes `any` true. -/
theorem getFieldList_any {k : String} {fs : List (String × JVal)} {v : JVal}
    (h : getFieldList k fs = some v) : fs.any (fun p => p.1 == k) = true := by
  induction fs with
  | nil => simp [getFieldList] at h
  | cons p rest ih =>
    by_cases hk : p.1 = k
    · simp [List.any_cons, hk]
    · rw [show getFieldList k (p :: rest) =
          (if p.1 = k then some p.2 else getFieldList k rest) from rfl,
        if_neg hk] at h
      simp only [List.any_cons, ih h, Bool.or_true]

/-- A key absent from the list makes `any` false. -/
theorem getFieldList_none_any {k : String} {fs : List (String × JVal)}
    (h : getFieldList k fs = none) : fs.any (fun p => p.1 == k) = false := by
  induction fs with
  | nil => simp
  | cons p rest ih =>
    by_cases hk : p.1 = k
    · rw [show getFieldList k (p :: rest) =
          (if p.1 = k then some p.2 else getFieldList k rest) from rfl,
        if_pos hk] at h
      exact Option.noConfusion h
    · rw [show getFieldList k (p :: rest) =
          (if p.1 = k then some p.2 else getFieldList k rest) from rfl,
        if_neg hk] at h
      simp only [List.any_cons, ih h, Bool.or_false, beq_eq_false_iff_ne, ne_eq]
      simpa using hk

/-- Replacing every binding of `k` by the value it already holds is the
identity. -/
theorem mapReplace_eq_self (k : String) (v : JVal) (fs : List (String × JVal))
    (h : ∀ p ∈ fs, p.1 = k → p.2 = v) :
    fs.map (fun p => if p.1 == k then (p.1, v) else p) = fs := by
  induction fs with
  | nil => rfl
  | cons p rest ih =>
    have hrest := ih (fun q hq => h q (List.mem_cons_of_mem p hq))
    simp only [List.map_cons, hrest]
    by_cases hk : p.1 = k
    · have hv := h p (List.mem_cons_self p rest) hk
      simp only [hk, beq_self_eq_true, if_true, ← hv]
      rw [← hk]
    · simp [hk]

/-- `setField` with the value already held at the key is the identity. -/
theorem setField_eq_self (k : String) (v : JVal) (fs : List (String × JVal))
    (h : getFieldList k fs = some v) (hall : ∀ p ∈ fs, p.1 = k → p.2 = v) :
    setField fs k v = fs := by
  unfold setField
  rw [getFieldList_any h]
  simpa using mapReplace_eq_self k v fs hall

/-- C9 (amended): the sidecar defaulting exists only on the search path,
in the UI's `handleSearch` normalization: an object row whose
`_additional` is already present (truthy) passes through unchanged, an
object row lacking `_additional` gets `{id:'',score:0}` appended, and a
falsy or non-object row is replaced wholly by the default-sidecar
object.  Listing rows (`getCollectionData`) are delivered to the caller
verbatim, with no sidecar defaulting anywhere on that path. -/
theorem C9_sidecar_normalization_amended :
    (∀ (fs : List (String × JVal)) (v : JVal),
      getFieldList "_additional" fs = some v →
      (∀ p ∈ fs, p.1 = "_additional" → p.2 = v) →
      v.truthy = true →
      normalizeSearchRow (.obj fs) = .obj fs) ∧
    (∀ fs : List (String × JVal),
      getFieldList "_additional" fs = none →
      normalizeSearchRow (.obj fs) = .obj (fs ++ [("_additional", defaultSidecar)])) ∧
    (∀ r : JVal, r.truthy = false ∨ isObjectTypeof r = false →
      normalizeSearchRow r = .obj [("_additional", defaultSidecar)]) ∧
    (∀ (env : Env) (st : TraceState) (cn : String) (props : List GetDataProp)
        (sort : Option SortConfig) (limit offset : Option Int)
        (resp : HttpResponse) (fsB fsD g : List (String × JVal)) (rows : JVal),
      urlBlank (initializeWeaviate env.settings).currentUrl = false →
      env.respond st.calls (graphqlRequest (initializeWeaviate env.settings)
        (buildGetDataQuery cn props sort limit offset)) = some resp →
      respOk resp = true →
      resp.jsonBody = some (.obj fsB) →
      getFieldList "data" fsB = some (.obj fsD) →
      getFieldList "Get" fsD = some (.obj g) →
      getFieldList cn g = some rows →
      rows.truthy = true →
      (getCollectionData env st cn props sort limit offset).1 = .ok rows) := by
  refine ⟨?_, ?_, ?_, ?_⟩
  · intro fs v h hall htr
    have hor : jsOrDefault (getFieldList "_additional" fs) defaultSidecar = v := by
      simp [h, jsOrDefault, htr]
    simp [normalizeSearchRow, JVal.truthy, isObjectTypeof, hor,
      setField_eq_self _ _ _ h hall]
  · intro fs h
    have hor : jsOrDefault (getFieldList "_additional" fs) defaultSidecar =
        defaultSidecar := by simp [h, jsOrDefault]
    simp [normalizeSearchRow, JVal.truthy, isObjectTypeof, hor, setField,
      getFieldList_none_any h]
  · intro r h
    rcases h with h | h <;>
      cases r <;> simp_all [normalizeSearchRow, JVal.truthy, isObjectTypeof]
  · intro env st cn props sort limit offset resp fsB fsD g rows hurl hr hok hbody
      hBD hDG hkey htr
    have htru : truthyU (jsGetOpt (jsGetOpt (some (JVal.obj fsB)) "data") "Get")
        = true := by
      simp [truthyU, jsGetOpt, JVal.getField, hBD, hDG, JVal.truthy]
    simp [getCollectionData, hurl, executeQuery, fetchStep, hr, hok, hbody, htru,
      jsGetE, JVal.getField, hBD, hDG, jsIndexKey, hkey, jsOrDefault, htr]

/-- C9 witness: the amended theorem applied to concrete rows and a
concrete listing response. -/
theorem C9_witness :
    normalizeSearchRow (.obj [("name", .str "x"),
      ("_additional", .obj [("id", .str "a"), ("score", .num 1)])]) =
      .obj [("name", .str "x"),
        ("_additional", .obj [("id", .str "a"), ("score", .num 1)])] ∧
    normalizeSearchRow (.obj [("name", .str "x")]) =
      .obj [("name", .str "x"), ("_additional", defaultSidecar)] ∧
    normalizeSearchRow .null = .obj [("_additional", defaultSidecar)] ∧
    (getCollectionData env9 TraceState.init "Article" [] none (some 250) (some 0)).1
      = .ok (.arr [.obj [("name", .str "x")]]) := by
  refine ⟨?_, ?_, ?_, ?_⟩
  · exact C9_sidecar_normalization_amended.1 _ _ rfl
      (by intro p hp hk; simp at hp; rcases hp with h | h <;> simp_all) rfl
  · exact C9_sidecar_normalization_amended.2.1 _ rfl
  · exact C9_sidecar_normalization_amended.2.2.1 .null (Or.inl rfl)
  · exact C9_sidecar_normalization_amended.2.2.2 env9 TraceState.init "Article" []
      none (some 250) (some 0) respRowNoSidecar
      [("data", .obj [("Get", .obj [("Article", .arr [.obj [("name", .str "x")]])])])]
      [("Get", .obj [("Article", .arr [.obj [("name", .str "x")]])])]
      [("Article", .arr [.obj [("name", .str "x")]])]
      (.arr [.obj [("name", .str "x")]])
      (by decide) rfl (by decide) rfl rfl rfl rfl rfl

/-- C10: in `searchCollections`, an absent `searchType` defaults to bm25
— the built query document embeds a directive beginning `bm25: ` — and an
absent or zero `limit` renders as `limit: 10` in the document, while a
non-zero limit is rendered verbatim. -/
theorem C10_search_directive_and_limit_defaults :
    ∀ (options : SearchOptions) (cn d ptf : String),
      (options.searchType = none →
        effectiveSearchType options = SearchType.bm25 ∧
        ∃ rest, buildSearchDirective (effectiveSearchType options) options.query
          options.properties = "bm25: " ++ rest) ∧
      ((options.limit = none ∨ options.limit = some 0) →
        effectiveLimit options = 10 ∧
        ∃ pre post, buildSearchQuery cn d (effectiveLimit options) ptf =
          pre ++ ("limit: " ++ toString (10 : Int)) ++ post) ∧
      (∀ l : Int, options.limit = some l → l ≠ 0 →
        effectiveLimit options = l ∧
        ∃ pre post, buildSearchQuery cn d (effectiveLimit options) ptf =
          pre ++ ("limit: " ++ toString l) ++ post) ∧
      ("limit: " ++ toString (10 : Int) = "limit: 10") := by
  intro options cn d ptf
  refine ⟨?_, ?_, ?_, by decide⟩
  · intro h
    have he : effectiveSearchType options = SearchType.bm25 := by
      simp [effectiveSearchType, h]
    refine ⟨he, ?_⟩
    rw [he]
    unfold buildSearchDirective
    refine ⟨"\x7b query: \"" ++ (options.query ++ ("\"" ++
      ((if (buildPropsList options.properties).truthy then
          ", properties: [" ++ buildPropsList options.properties ++ "]"
        else "") ++ " \x7d"))), ?_⟩
    apply String.ext
    simp only [String.data_append, List.append_assoc]
    simp
  · intro h
    have he : effectiveLimit options = 10 := by
      rcases h with h | h <;> simp [effectiveLimit, h]
    refine ⟨he, ?_⟩
    rw [he]
    unfold buildSearchQuery
    refine ⟨"\x7b\n      Get \x7b\n        " ++ (cn ++ ("(\n          " ++ (d ++ "\n          "))),
      "\n        ) \x7b\n          _additional \x7b\n            id\n            score\n          \x7d\n          " ++
        (ptf ++ "\n        \x7d\n      \x7d\n    \x7d"), ?_⟩
    apply String.ext
    simp only [String.data_append, List.append_assoc]
    simp
  · intro l h hl
    have he : effectiveLimit options = l := by
      simp [effectiveLimit, h, hl]
    refine ⟨he, ?_⟩
    rw [he]
    unfold buildSearchQuery
    refine ⟨"\x7b\n      Get \x7b\n        " ++ (cn ++ ("(\n          " ++ (d ++ "\n          "))),
      "\n        ) \x7b\n          _additional \x7b\n            id\n            score\n          \x7d\n          " ++
        (ptf ++ "\n        \x7d\n      \x7d\n    \x7d"), ?_⟩
    apply String.ext
    simp only [String.data_append, List.append_assoc]
    simp

def searchOpts10 : SearchOptions :=
  { query := "hello", collectionName := "Article", searchType := none,
    limit := none, properties := none }

def searchOpts10b : SearchOptions :=
  { query := "hello", collectionName := "Article", searchType := none,
    limit := some 25, properties := none }

/-- C10 witness: the theorem applied to concrete search options with
absent searchType and absent / zero / non-zero limits. -/
theorem C10_witness :
    effectiveSearchType searchOpts10 = SearchType.bm25 ∧
    (∃ rest, buildSearchDirective (effectiveSearchType searchOpts10)
      searchOpts10.query searchOpts10.properties = "bm25: " ++ rest) ∧
    effectiveLimit searchOpts10 = 10 ∧
    (∃ pre post, buildSearchQuery "Article" "d" (effectiveLimit searchOpts10) "p" =
      pre ++ ("limit: " ++ toString (10 : Int)) ++ post) ∧
    effectiveLimit searchOpts10b = 25 := by
  have h1 := (C10_search_directive_and_limit_defaults searchOpts10 "Article" "d" "p").1 rfl
  have h2 := (C10_search_directive_and_limit_defaults searchOpts10 "Article" "d" "p").2.1
    (Or.inl rfl)
  have h3 := ((C10_search_directive_and_limit_defaults searchOpts10b "Article" "d" "p").2.2.1
    25 rfl (by decide)).1
  exact ⟨h1.1, h1.2, h2.1, h2.2, h3⟩

/-- C3: every public access-layer operation first reloads settings via
`initializeWeaviate` and, when the loaded url is empty or blank, throws
the configuration error without issuing any network request (the trace
state — call counter and request list — is returned unchanged).  The
claim's operation list names an "update collection" operation, which
does not exist in the source; every operation that does exist is covered
here, including the two internal query executors. -/
theorem C3_fail_fast_on_blank_url :
    ∀ env : Env, urlBlank (initializeWeaviate env.settings).currentUrl = true →
      (∀ st q, executeQuery env st q = (.error configErrorMsg, st)) ∧
      (∀ st q c, executeAggregateQuery env st q c = (.error configErrorMsg, st)) ∧
      (∀ st, getCollections env st = (.error configErrorMsg, st)) ∧
      (∀ st cn props sort limit offset,
        getCollectionData env st cn props sort limit offset =
          (.error configErrorMsg, st)) ∧
      (∀ st cn ids, deleteObjects env st cn ids = (.error configErrorMsg, st)) ∧
      (∀ st cn, deleteCollection env st cn = (.error configErrorMsg, st)) ∧
      (∀ st schema, createCollection env st schema = (.error configErrorMsg, st)) ∧
      (∀ st cn obj, createObject env st cn obj = (.error configErrorMsg, st)) ∧
      (∀ st cn oid, getObjectById env st cn oid = (.error configErrorMsg, st)) ∧
      (∀ st cn oid obj, updateObject env st cn oid obj = (.error configErrorMsg, st)) ∧
      (∀ st opts, searchCollections env st opts = (.error configErrorMsg, st)) := by
  intro env h
  refine ⟨fun st q => ?_, fun st q c => ?_, fun st => ?_, fun st cn props sort limit offset => ?_,
    fun st cn ids => ?_, fun st cn => ?_, fun st schema => ?_, fun st cn obj => ?_,
    fun st cn oid => ?_, fun st cn oid obj => ?_, fun st opts => ?_⟩
  · simp [executeQuery, h]
  · simp [executeAggregateQuery, h]
  · simp [getCollections, h]
  · simp [getCollectionData, h]
  · simp [deleteObjects, h]
  · simp [deleteCollection, h]
  · simp [createCollection, h]
  · simp [createObject, h]
  · simp [getObjectById, h]
  · simp [updateObject, h]
  · simp [searchCollections, h]

def env3 : Env :=
  { settings := { weaviateUrl := "   ", apiKey := "k" },
    respond := fun _ _ => none }

/-- C3 witness: with a whitespace-only url loaded from settings, the
operations return the configuration error and the trace is untouched. -/
theorem C3_witness :
    executeQuery env3 TraceState.init "q" = (.error configErrorMsg, TraceState.init) ∧
    getCollections env3 TraceState.init = (.error configErrorMsg, TraceState.init) ∧
    deleteObjects env3 TraceState.init "C" ["a"] = (.error configErrorMsg, TraceState.init) ∧
    getObjectById env3 TraceState.init "C" "x" = (.error configErrorMsg, TraceState.init) ∧
    searchCollections env3 TraceState.init
      { query := "q", collectionName := "C", searchType := none,
        limit := none, properties := none } = (.error configErrorMsg, TraceState.init) := by
  have h := C3_fail_fast_on_blank_url env3 (by decide)
  exact ⟨h.1 _ _, h.2.2.1 _, h.2.2.2.2.1 _ _ _, h.2.2.2.2.2.2.2.2.1 _ _ _,
    h.2.2.2.2.2.2.2.2.2.2 _ _⟩

/-- Whether the store answers the DELETE for `id` issued as call `n`
with a 2xx response. -/
def deleteRespOkAt (env : Env) (conn : Conn) (n : Nat) (id : String) : Bool :=
  match env.respond n (deleteObjectRequest conn id) with
  | none => false
  | some r => respOk r

/-- The message thrown for a failing DELETE: the rejected-fetch message,
or `Failed to delete object: <statusText>` — the failing id appears in
neither (it is only written to the console log). -/
def deleteFailMsg : Option HttpResponse → String
  | none => fetchFailedMsg
  | some r => "Failed to delete object: " ++ r.statusText

/-- The delete loop under all-successful responses: one DELETE per id,
in order, and success. -/
theorem deleteLoop_all_ok (env : Env) (conn : Conn) :
    ∀ (ids : List String) (st : TraceState),
      (∀ i (h : i < ids.length),
        deleteRespOkAt env conn (st.calls + i) (ids.get ⟨i, h⟩) = true) →
      deleteObjectsLoop env conn ids st =
        (.ok (), { calls := st.calls + ids.length,
                   reqs := st.reqs ++ ids.map (deleteObjectRequest conn) }) := by
  intro ids
  induction ids with
  | nil =>
    intro st _
    simp [deleteObjectsLoop]
  | cons id rest ih =>
    intro st h
    have h0 := h 0 (by simp)
    cases hr : env.respond st.calls (deleteObjectRequest conn id) with
    | none => simp [deleteRespOkAt, hr] at h0
    | some r =>
      have hok : respOk r = true := by simpa [deleteRespOkAt, hr] using h0
      have hrest : ∀ i (hi : i < rest.length),
          deleteRespOkAt env conn (st.calls + 1 + i) (rest.get ⟨i, hi⟩) = true := by
        intro i hi
        have := h (i + 1) (by simpa using Nat.succ_lt_succ hi)
        simpa [Nat.add_assoc, Nat.add_comm 1 i] using this
      have hstep : deleteObjectsLoop env conn (id :: rest) st =
          deleteObjectsLoop env conn rest
            ({ calls := st.calls + 1,
                reqs := st.reqs ++ [deleteObjectRequest conn id] } : TraceState) := by
        simp [deleteObjectsLoop, fetchStep, hr, hok]
      rw [hstep,
        ih ({ calls := st.calls + 1,
              reqs := st.reqs ++ [deleteObjectRequest conn id] } : TraceState) hrest]
      simp [Nat.add_assoc, Nat.add_comm 1 rest.length]
/-- The delete loop when the first `k` responses succeed and the
`k`-th fails: the DELETE requests for ids `0..k` are issued in order,
nothing later is issued, and the loop throws the failing response's
message. -/
theorem deleteLoop_first_failure (env : Env) (conn : Conn) :
    ∀ (ids : List String) (k : Nat) (st : TraceState) (hk : k < ids.length),
      (∀ i (hi : i < k),
        deleteRespOkAt env conn (st.calls + i) (ids.get ⟨i, lt_trans hi hk⟩) = true) →
      deleteRespOkAt env conn (st.calls + k) (ids.get ⟨k, hk⟩) = false →
      deleteObjectsLoop env conn ids st =
        (.error (deleteFailMsg
            (env.respond (st.calls + k) (deleteObjectRequest conn (ids.get ⟨k, hk⟩)))),
         { calls := st.calls + k + 1,
           reqs := st.reqs ++ (ids.take (k + 1)).map (deleteObjectRequest conn) }) := by
  intro ids
  induction ids with
  | nil =>
    intro k st hk
    exact absurd hk (by simp)
  | cons id rest ih =>
    intro k st hk hpre hfail
    cases k with
    | zero =>
      cases hr : env.respond st.calls (deleteObjectRequest conn id) with
      | none =>
        simp [deleteObjectsLoop, fetchStep, hr, deleteFailMsg]
      | some r =>
        have hok : respOk r = false := by simpa [deleteRespOkAt, hr] using hfail
        simp [deleteObjectsLoop, fetchStep, hr, hok, deleteFailMsg]
    | succ k' =>
      have h0 := hpre 0 (Nat.succ_pos k')
      cases hr : env.respond st.calls (deleteObjectRequest conn id) with
      | none => simp [deleteRespOkAt, hr] at h0
      | some r =>
        have hok : respOk r = true := by simpa [deleteRespOkAt, hr] using h0
        have hk' : k' < rest.length := Nat.lt_of_succ_lt_succ hk
        have hpre' : ∀ i (hi : i < k'),
            deleteRespOkAt env conn (st.calls + 1 + i)
              (rest.get ⟨i, lt_trans hi hk'⟩) = true := by
          intro i hi
          have := hpre (i + 1) (Nat.succ_lt_succ hi)
          simpa [Nat.add_assoc, Nat.add_comm 1 i] using this
        have hfail' : deleteRespOkAt env conn (st.calls + 1 + k')
            (rest.get ⟨k', hk'⟩) = false := by
          simpa [Nat.add_assoc, Nat.add_comm 1 k'] using hfail
        have hstep : deleteObjectsLoop env conn (id :: rest) st =
            deleteObjectsLoop env conn rest
              ({ calls := st.calls + 1,
                  reqs := st.reqs ++ [deleteObjectRequest conn id] } : TraceState) := by
          simp [deleteObjectsLoop, fetchStep, hr, hok]
        rw [hstep,
          ih k' ({ calls := st.calls + 1,
                   reqs := st.reqs ++ [deleteObjectRequest conn id] } : TraceState)
            hk' hpre' hfail']
        simp [Nat.add_assoc, Nat.add_comm 1 k', List.take_succ_cons]

/-- C1 (amended): `deleteObjects` issues one DELETE per id, strictly in
the given order and sequentially; when the first `k` DELETEs succeed and
the `k`-th fails, exactly the requests for ids `0..k` have been issued
(the first `k` of them deleted, the rest never attempted) and the
surfaced error carries the failing response's status text (`Failed to
delete object: <statusText>`) — the failing id itself appears only in
the console log, not in the thrown error. -/
theorem C1_deleteObjects_sequential_first_failure :
    ∀ (env : Env) (st : TraceState) (cn : String) (ids : List String),
      urlBlank (initializeWeaviate env.settings).currentUrl = false →
      ((∀ i (h : i < ids.length),
          deleteRespOkAt env (initializeWeaviate env.settings) (st.calls + i)
            (ids.get ⟨i, h⟩) = true) →
        deleteObjects env st cn ids =
          (.ok (), { calls := st.calls + ids.length,
                     reqs := st.reqs ++
                       ids.map (deleteObjectRequest (initializeWeaviate env.settings)) })) ∧
      (∀ k (hk : k < ids.length),
        (∀ i (hi : i < k),
          deleteRespOkAt env (initializeWeaviate env.settings) (st.calls + i)
            (ids.get ⟨i, lt_trans hi hk⟩) = true) →
        deleteRespOkAt env (initializeWeaviate env.settings) (st.calls + k)
          (ids.get ⟨k, hk⟩) = false →
        deleteObjects env st cn ids =
          (.error (deleteFailMsg (env.respond (st.calls + k)
              (deleteObjectRequest (initializeWeaviate env.settings) (ids.get ⟨k, hk⟩)))),
           { calls := st.calls + k + 1,
             reqs := st.reqs ++ (ids.take (k + 1)).map
               (deleteObjectRequest (initializeWeaviate env.settings)) })) := by
  intro env st cn ids hurl
  constructor
  · intro h
    rw [show deleteObjects env st cn ids =
        deleteObjectsLoop env (initializeWeaviate env.settings) ids st by
      simp [deleteObjects, hurl]]
    exact deleteLoop_all_ok env (initializeWeaviate env.settings) ids st h
  · intro k hk hpre hfail
    rw [show deleteObjects env st cn ids =
        deleteObjectsLoop env (initializeWeaviate env.settings) ids st by
      simp [deleteObjects, hurl]]
    exact deleteLoop_first_failure env (initializeWeaviate env.settings) ids k st hk
      hpre hfail

/-- Executable substring test (used to state that the surfaced error
does not mention the failing id). -/
def strContainsB (hay needle : String) : Bool :=
  (List.range (hay.toList.length + 1)).any
    (fun i => ((hay.toList.drop i).take needle.toList.length) == needle.toList)

def env1 : Env :=
  { settings := { weaviateUrl := "http://h", apiKey := "" },
    respond := fun _ req =>
      if req.url = "http://h/v1/objects/id-2" then
        some { status := 500, statusText := "Internal Server Error",
               jsonBody := none, textBody := "" }
      else
        some { status := 204, statusText := "No Content",
               jsonBody := some .null, textBody := "" } }

/-- C1 counterexample: deleting `[id-1, id-2, id-3]` where the store
fails the DELETE of `id-2` with a 500: the loop stops after the second
request as claimed, but the surfaced error is
`Failed to delete object: Internal Server Error`, which does not
identify the failing id (`id-2` occurs nowhere in it) — contradicting
the claim that the surfaced error identifies that id. -/
theorem C1_counterexample :
    (deleteObjects env1 TraceState.init "Article" ["id-1", "id-2", "id-3"]).1
      = .error ("Failed to delete object: " ++ "Internal Server Error") ∧
    ((deleteObjects env1 TraceState.init "Article" ["id-1", "id-2", "id-3"]).2.reqs.map
      (fun r => r.url)) =
      ["http://h/v1/objects/id-1", "http://h/v1/objects/id-2"] ∧
    strContainsB ("Failed to delete object: " ++ "Internal Server Error") "id-2"
      = false := by
  refine ⟨rfl, rfl, by decide⟩

/-- C1 witness: the amended theorem applied to the same concrete store,
with the prefix-success and failure hypotheses discharged. -/
theorem C1_witness :
    (deleteObjects env1 TraceState.init "Article" ["id-1", "id-2", "id-3"]).1
      = .error (deleteFailMsg (env1.respond 1
          (deleteObjectRequest (initializeWeaviate env1.settings) "id-2"))) ∧
    (deleteObjects env1 TraceState.init "Article" ["id-1", "id-2", "id-3"]).2.calls = 2 := by
  have h := (C1_deleteObjects_sequential_first_failure env1 TraceState.init "Article"
    ["id-1", "id-2", "id-3"] (by decide)).2 1 (by decide)
    (by
      intro i hi
      have hi0 : i = 0 := Nat.lt_one_iff.mp hi
      subst hi0
      show deleteRespOkAt env1 (initializeWeaviate env1.settings)
        (TraceState.init.calls + 0)
        ((["id-1", "id-2", "id-3"] : List String).get ⟨0, by decide⟩) = true
      decide)
    (by decide)
  rw [h]
  exact ⟨rfl, rfl⟩

/-- The aggregate-count request issued for one class. -/
def aggRequestFor (conn : Conn) (name : String) : HttpRequest :=
  graphqlRequest conn (buildAggregateQuery (some (.str name)))

/-- One schema-listing entry `{ class: name }`. -/
def classEntry (name : String) : JVal := .obj [("class", .str name)]

/-- A well-formed aggregate response body
`{ data: { Aggregate: { name: [ { meta: { count: n } } ] } } }`. -/
def aggBodyFor (name : String) (n : Int) : JVal :=
  .obj [("data", .obj [("Aggregate",
    .obj [(name, .arr [.obj [("meta", .obj [("count", .num n)])]])])])]

/-- The store's behavior for one class's count fetch: `none` is a
transport-level failure (rejected fetch, non-2xx status, or an
unparseable body — everything `getObjectCount`'s try/catch swallows),
`some n` a well-formed 2xx count response. -/
def aggRespondsWith (env : Env) (conn : Conn) (idx : Nat) (name : String) :
    Option Int → Prop
  | none =>
    (match env.respond idx (aggRequestFor conn name) with
     | none => True
     | some r => respOk r = false ∨ (respOk r = true ∧ r.jsonBody = none))
  | some n =>
    ∃ r, env.respond idx (aggRequestFor conn name) = some r ∧
      respOk r = true ∧ r.jsonBody = some (aggBodyFor name n)

/-- The descriptor `getCollections` builds for one class under
`aggRespondsWith` behavior. -/
def specInfo (s : String × Option Int) : CollectionInfo :=
  { name := some (.str s.1), description := none,
    count := .num (s.2.getD 0), properties := [] }

/-- `getObjectCount` under the two isolated behaviors: any failure of
the aggregate round trip itself is caught and yields count 0, and a
well-formed 2xx count response yields its count; either way exactly one
request is issued. -/
theorem getObjectCount_spec (env : Env) (st : TraceState) (name : String)
    (hurl : urlBlank (initializeWeaviate env.settings).currentUrl = false) :
    ∀ outcome : Option Int,
      aggRespondsWith env (initializeWeaviate env.settings) st.calls name outcome →
      getObjectCount env st (some (.str name)) =
        (.ok (.num (outcome.getD 0)),
         { calls := st.calls + 1,
           reqs := st.reqs ++ [aggRequestFor (initializeWeaviate env.settings) name] }) := by
  intro outcome hout
  cases outcome with
  | none =>
    cases hr : env.respond st.calls
        (graphqlRequest (initializeWeaviate env.settings)
          (buildAggregateQuery (some (.str name)))) with
    | none =>
      simp [getObjectCount, executeAggregateQuery, hurl, fetchStep,
        aggRequestFor, hr]
    | some r =>
      have hout' : respOk r = false ∨ (respOk r = true ∧ r.jsonBody = none) := by
        simpa [aggRespondsWith, aggRequestFor, hr] using hout
      rcases hout' with hbad | ⟨hok, hnb⟩
      · simp [getObjectCount, executeAggregateQuery, hurl, fetchStep,
          aggRequestFor, hr, hbad]
      · simp [getObjectCount, executeAggregateQuery, hurl, fetchStep,
          aggRequestFor, hr, hok, hnb]
  | some n =>
    obtain ⟨r, hr, hok, hbody⟩ := hout
    simp only [aggRequestFor] at hr
    simp [getObjectCount, executeAggregateQuery, hurl, fetchStep, aggRequestFor,
      hr, hok, hbody, aggBodyFor, JVal.getField, getFieldList, jsTemplate,
      jsToString, nullish, countFromAggregateData, jsIndex, jsGetOpt]

/-- The `getCollections` loop under per-class `aggRespondsWith`
behaviors: every class yields its descriptor (count 0 for the
transport-failing ones), one aggregate request per class, sequentially. -/
theorem getCollectionsLoop_spec (env : Env)
    (hurl : urlBlank (initializeWeaviate env.settings).currentUrl = false) :
    ∀ (specs : List (String × Option Int)) (st : TraceState)
      (acc : List CollectionInfo),
      (∀ i (h : i < specs.length),
        aggRespondsWith env (initializeWeaviate env.settings) (st.calls + i)
          (specs.get ⟨i, h⟩).1 (specs.get ⟨i, h⟩).2) →
      ∃ reqs2 : List HttpRequest,
        getCollectionsLoop env (specs.map (fun s => classEntry s.1)) st acc =
          (.ok (acc ++ specs.map specInfo),
           { calls := st.calls + specs.length, reqs := reqs2 }) := by
  intro specs
  induction specs with
  | nil =>
    intro st acc _
    exact ⟨st.reqs, by simp [getCollectionsLoop]⟩
  | cons s rest ih =>
    intro st acc h
    have h0 := h 0 (by simp)
    have hcount := getObjectCount_spec env st s.1 hurl s.2 (by simpa using h0)
    have hstep : getCollectionsLoop env ((s :: rest).map (fun x => classEntry x.1)) st acc =
        getCollectionsLoop env (rest.map (fun x => classEntry x.1))
          ({ calls := st.calls + 1,
             reqs := st.reqs ++ [aggRequestFor (initializeWeaviate env.settings) s.1] }
            : TraceState)
          (acc ++ [specInfo s]) := by
      simp [getCollectionsLoop, classEntry, JVal.getField, getFieldList, hcount,
        extractProperties, specInfo]
    have hrest : ∀ i (hi : i < rest.length),
        aggRespondsWith env (initializeWeaviate env.settings) (st.calls + 1 + i)
          (rest.get ⟨i, hi⟩).1 (rest.get ⟨i, hi⟩).2 := by
      intro i hi
      have := h (i + 1) (by simpa using Nat.succ_lt_succ hi)
      simpa [Nat.add_assoc, Nat.add_comm 1 i] using this
    obtain ⟨reqs2, hrec⟩ := ih
      ({ calls := st.calls + 1,
         reqs := st.reqs ++ [aggRequestFor (initializeWeaviate env.settings) s.1] }
        : TraceState) (acc ++ [specInfo s]) hrest
    refine ⟨reqs2, ?_⟩
    rw [hstep, hrec]
    simp [Nat.add_assoc, Nat.add_comm 1 rest.length]

/-- C2 (amended): count-fetch failures are isolated only at the
transport level.  When the schema listing succeeds and, for each class,
the aggregate count fetch either fails as a round trip (rejected fetch,
non-2xx, or unparseable body — all swallowed by `getObjectCount`'s
try/catch) or returns a well-formed 2xx count, `listCollections`
returns a descriptor for every collection in order, with count 0 for
the failing ones and no exception.  (A 2xx aggregate response that
parses but lacks `data.Aggregate` is NOT isolated: it raises a
`TypeError` outside the try/catch that propagates to the caller — see
the counterexample.) -/
theorem C2_count_failures_isolated_amended :
    ∀ (env : Env) (st : TraceState) (specs : List (String × Option Int))
      (respSchema : HttpResponse),
      urlBlank (initializeWeaviate env.settings).currentUrl = false →
      env.respond st.calls (schemaGetRequest (initializeWeaviate env.settings))
        = some respSchema →
      respOk respSchema = true →
      respSchema.jsonBody = some (.obj [("classes",
        .arr (specs.map (fun s => classEntry s.1)))]) →
      (∀ i (h : i < specs.length),
        aggRespondsWith env (initializeWeaviate env.settings) (st.calls + 1 + i)
          (specs.get ⟨i, h⟩).1 (specs.get ⟨i, h⟩).2) →
      (getCollections env st).1 = .ok (specs.map specInfo) := by
  intro env st specs respSchema hurl hr hok hbody hagg
  obtain ⟨reqs2, hloop⟩ := getCollectionsLoop_spec env hurl specs
    ({ calls := st.calls + 1,
       reqs := st.reqs ++ [schemaGetRequest (initializeWeaviate env.settings)] }
      : TraceState) [] hagg
  simp [getCollections, hurl, fetchStep, hr, hok, hbody, jsGetE, JVal.getField,
    getFieldList, nullish, iterElems, hloop]

def env2 : Env :=
  { settings := { weaviateUrl := "http://h", apiKey := "" },
    respond := fun n _ =>
      if n = 0 then
        some { status := 200, statusText := "OK",
               jsonBody := some (.obj [("classes", .arr [classEntry "Articles"])]),
               textBody := "" }
      else
        some { status := 200, statusText := "OK", jsonBody := some (.obj []),
               textBody := "" } }

/-- C2 counterexample: the claim says the listing survives every way the
count fetch can fail, including a 2xx aggregate response lacking the
`data.Aggregate` shape.  With one collection and an aggregate response
that is 2xx with body `{}`, the unguarded access
`aggregateResponse?.data.Aggregate[className]` (outside the try/catch)
raises a `TypeError` that propagates out of `getCollections`: no listing
is returned at all. -/
theorem C2_counterexample :
    (getCollections env2 TraceState.init).1 = .error "TypeError" ∧
    respOk { status := 200, statusText := "OK", jsonBody := some (.obj []),
             textBody := "" } = true := by
  exact ⟨rfl, by decide⟩

def aggRespOkFor (name : String) (n : Int) : HttpResponse :=
  { status := 200, statusText := "OK", jsonBody := some (aggBodyFor name n),
    textBody := "" }

def env2w : Env :=
  { settings := { weaviateUrl := "http://h", apiKey := "" },
    respond := fun n _ =>
      if n = 0 then
        some { status := 200, statusText := "OK",
               jsonBody := some (.obj [("classes",
                 .arr [classEntry "A", classEntry "B", classEntry "C"])]),
               textBody := "" }
      else if n = 1 then some (aggRespOkFor "A" 5)
      else if n = 2 then
        some { status := 500, statusText := "Internal Server Error",
               jsonBody := none, textBody := "" }
      else some (aggRespOkFor "C" 7) }

/-- C2 witness: three collections where the middle count fetch fails
with a 500 — all three descriptors are returned, the failing one with
count 0. -/
theorem C2_witness :
    (getCollections env2w TraceState.init).1 =
      .ok (([("A", some 5), ("B", none), ("C", some 7)] :
        List (String × Option Int)).map specInfo) ∧
    specInfo ("B", (none : Option Int)) =
      { name := some (.str "B"), description := none, count := .num 0,
        properties := [] } := by
  constructor
  · refine C2_count_failures_isolated_amended env2w TraceState.init
      [("A", some 5), ("B", none), ("C", some 7)]
      { status := 200, statusText := "OK",
        jsonBody := some (.obj [("classes",
          .arr [classEntry "A", classEntry "B", classEntry "C"])]),
        textBody := "" }
      (by decide) rfl (by decide) rfl ?_
    intro i hi
    match i, hi with
    | 0, _ => exact ⟨aggRespOkFor "A" 5, rfl, by decide, rfl⟩
    | 1, _ => exact Or.inl (by decide)
    | 2, _ => exact ⟨aggRespOkFor "C" 7, rfl, by decide, rfl⟩
  · rfl
